import Mathlib

/-!
Shallow embedding of `src/sagemaker/base_predictor.py` (class `Predictor`).

Remote AWS calls performed through the `Session` object are modelled by an
environment `Env` of pure oracles (one per remote API used by the file), and
every operation returns, besides its result, the ordered list of remote calls
it dispatched (`Call`).  Python `None` becomes `Option.none`; Python
truthiness on optional strings / ints / lists is made explicit
(`strTruthy`, `natTruthy`, `listTruthy`).  Request dictionaries become
records of `Option` fields, a key being present iff its field is `some`.
-/

namespace BasePredictor

/-- Python truthiness of an optional int (`None` and `0` are falsy). -/
def natTruthy : Option Nat → Bool
  | some n => n != 0
  | none => false

/-- Python truthiness of an optional string (`None` and `""` are falsy). -/
def strTruthy : Option String → Bool
  | some s => s != ""
  | none => false

/-- Python truthiness of an optional list/dict (`None` and empty are falsy). -/
def listTruthy {α : Type} : Option (List α) → Bool
  | some l => !l.isEmpty
  | none => false

/-- A content-type value carried by a serializer's `CONTENT_TYPE` or a
deserializer's `ACCEPT`: either a plain string or a tuple of strings
(the code distinguishes the two with `isinstance(..., str)`). -/
inductive ContentTypeVal
  | str (s : String)
  | tup (ss : List String)
deriving DecidableEq

/-- `x if isinstance(x, str) else ", ".join(x)` (lines 250-253 and 260-261). -/
def ctJoin : ContentTypeVal → String
  | .str s => s
  | .tup ss => String.intercalate ", " ss

/-- Python truthiness of a content-type value (empty string / empty tuple falsy). -/
def ctTruthy : ContentTypeVal → Bool
  | .str s => s != ""
  | .tup ss => !ss.isEmpty

/-- Serializer strategy object (external): its `CONTENT_TYPE` attribute and its
`serialize` method (which maps the call's `data` argument to the request body). -/
structure Serializer where
  CONTENT_TYPE : ContentTypeVal
  serializeFn : String → String

/-- Deserializer strategy object (external): its `ACCEPT` attribute and its
`deserialize(body, content_type)` method. -/
structure Deserializer where
  ACCEPT : ContentTypeVal
  deserializeFn : String → String → String

/-- The input of `predict`: either ordinary data handed to the configured
serializer, or a `JumpStartSerializablePayload` carrying its own embedded
`content_type` / `accept` attributes (lines 230-239). -/
inductive PredictData
  | raw (payload : String)
  | jumpStart (payload : String) (content_type accept : Option String)
deriving DecidableEq

def PredictData.isJumpStart : PredictData → Bool
  | .jumpStart .. => true
  | .raw _ => false

/-- The keyword arguments of one `invoke_endpoint` RPC (a key is present iff
its field is `some`); `initial_args` is an initial value of this record. -/
structure RequestArgs where
  EndpointName : Option String
  ContentType : Option String
  Accept : Option String
  TargetModel : Option String
  TargetVariant : Option String
  InferenceId : Option String
  CustomAttributes : Option String
  InferenceComponentName : Option String
  Body : Option String
deriving DecidableEq

/-- The empty request dictionary `{}`. -/
def RequestArgs.empty : RequestArgs :=
  { EndpointName := none, ContentType := none, Accept := none, TargetModel := none,
    TargetVariant := none, InferenceId := none, CustomAttributes := none,
    InferenceComponentName := none, Body := none }

/-- An `invoke_endpoint` response: `Body` plus optional `ContentType` (line 211-212). -/
structure InvokeResponse where
  Body : String
  ContentType : Option String
deriving DecidableEq

/-- `EndpointType` enum (`sagemaker.enums`), as used at lines 401-404. -/
inductive EndpointType
  | INFERENCE_COMPONENT_BASED
  | MODEL_BASED
deriving DecidableEq

/-- `ManagedInstanceScaling` dict built at lines 375-379: each key is present
iff the corresponding argument is truthy. -/
structure ManagedInstanceScaling where
  MaxInstanceCount : Option Nat
  MinInstanceCount : Option Nat
deriving DecidableEq

/-- Modelled from the spec: `production_variant` (`sagemaker.session`, not under
`src/`) builds the new production-variant spec from a model name, instance
type/count, optional accelerator type and the optional managed-scaling
sub-structure ("Managed scaling: if min/max instance counts given, they are
attached as a scaling sub-structure on the new production-variant spec"). -/
structure ProductionVariant where
  ModelName : String
  InstanceType : String
  InitialInstanceCount : Nat
  AcceleratorType : Option String
  ManagedInstanceScaling : Option ManagedInstanceScaling
deriving DecidableEq

/-- Modelled from the spec: the request dict produced by
`DataCaptureConfig._to_request_dict()` (external value object; "capture-config
value object serialized to a request mapping; Predictor treats them as opaque"). -/
structure DataCaptureConfigDict where
  EnableCapture : Bool
deriving DecidableEq

/-- Modelled from the spec: the `DataCaptureConfig` value object constructed by
`enable_data_capture` / `disable_data_capture` (external; opaque but for its
`enable_capture` flag). -/
structure DataCaptureConfig where
  enable_capture : Bool
deriving DecidableEq

def DataCaptureConfig.to_request_dict (c : DataCaptureConfig) : DataCaptureConfigDict :=
  { EnableCapture := c.enable_capture }

/-- Tags passed to `create_endpoint_config_from_existing` (opaque to this file). -/
def Tags : Type := List (String × String)

instance : DecidableEq Tags := by unfold Tags; infer_instance

/-- `Container` sub-dict of an inference-component specification (lines 515-522). -/
structure ICContainer where
  Image : Option String
  Environment : Option (List (String × String))
  ArtifactUrl : Option String
deriving DecidableEq

def ICContainer.isEmptyDict (c : ICContainer) : Bool :=
  c.Image.isNone && c.Environment.isNone && c.ArtifactUrl.isNone

/-- `StartupParameters` sub-dict of an inference-component specification
(lines 527-535). -/
structure ICStartupParameters where
  ModelDataDownloadTimeoutInSeconds : Option Nat
  ContainerStartupHealthCheckTimeoutInSeconds : Option Nat
deriving DecidableEq

def ICStartupParameters.isEmptyDict (s : ICStartupParameters) : Bool :=
  s.ModelDataDownloadTimeoutInSeconds.isNone &&
    s.ContainerStartupHealthCheckTimeoutInSeconds.isNone

/-- The `specification` dict of an `update_inference_component` request, after
the empty-value pruning loop of lines 537-543 (a pruned key is `none`). -/
structure ICSpecification where
  Container : Option ICContainer
  StartupParameters : Option ICStartupParameters
  ModelName : Option String
  ComputeResourceRequirements : Option (List (String × String))
deriving DecidableEq

/-- Modelled from the spec: `ResourceRequirements`
(`sagemaker.compute_resource_requirements`, not under `src/`): its
`copy_count` attribute and the dict returned by
`get_compute_resource_requirements()` ("`resources.copy_count`, when present,
maps to a separate runtime-config sub-structure"). -/
structure ResourceRequirements where
  copy_count : Option Nat
  requests : List (String × String)
deriving DecidableEq

/-- The full `update_inference_component` request of lines 498-543:
`runtime_config` holds the `CopyCount` when present. -/
structure ICRequest where
  inference_component_name : String
  specification : ICSpecification
  runtime_config : Option Nat
deriving DecidableEq

/-- A monitoring-schedule summary as returned by `list_monitoring_schedules`
(lines 721-723): its name and its optional `MonitoringType` tag. -/
structure ScheduleSummary where
  MonitoringScheduleName : String
  MonitoringType : Option String
deriving DecidableEq

/-- The five monitor classes a schedule can be classified into
(lines 747-770). -/
inductive MonitorClass
  | ModelBiasMonitor
  | ModelExplainabilityMonitor
  | DefaultModelMonitor
  | ModelMonitor
  | ModelQualityMonitor
deriving DecidableEq

/-- One remote call dispatched through the session / runtime client. -/
inductive Call
  | invokeEndpoint (args : RequestArgs)
  | describeEndpoint (endpoint_name : String)
  | describeEndpointConfig (config_name : String)
  | describeInferenceComponent (component_name : String)
  | createEndpointConfigFromExisting (existing_config_name new_config_name : String)
      (new_tags : Option Tags) (new_kms_key : Option String)
      (new_data_capture_config_dict : Option DataCaptureConfigDict)
      (new_production_variants : Option (List ProductionVariant))
      (endpoint_type : Option EndpointType)
  | updateEndpointCall (endpoint_name endpoint_config_name : String) (wait : Bool)
  | deleteModelCall (model_name : String)
  | updateInferenceComponent (request : ICRequest)
  | listMonitoringSchedules (endpoint_name : String)
  | describeMonitoringSchedule (schedule_name : String)
deriving DecidableEq

/-- `True` exactly for the two config-mutating calls of `update_endpoint`:
the endpoint-config creation and the endpoint update. -/
def Call.isConfigMutation : Call → Bool
  | .createEndpointConfigFromExisting .. => true
  | .updateEndpointCall .. => true
  | _ => false

/-- Pure oracles standing for the remote service and for helpers that live
outside `src/`: each field fixes the response of one external interaction.
`freshName` models `name_from_base` (`sagemaker.utils`, not under `src/`);
modelled from the spec, which only requires the new name to be "derived from
the current one".  `defaultRepositoryName` models the imported constant
`DEFAULT_REPOSITORY_NAME` (`sagemaker.model_monitor.model_monitoring`, not
under `src/`).  `payloadSerialize` models `PayloadSerializer(...).serialize`
(`sagemaker.jumpstart.payload_utils`, not under `src/`). -/
structure Env where
  payloadSerialize : String → String
  invoke : RequestArgs → InvokeResponse
  endpointConfigName : String → String
  configProductionVariants : String → List (Option String)
  icSpecModelName : String → Option String
  deleteModelOk : String → Bool
  freshName : String → String
  monitoringScheduleSummaries : String → List ScheduleSummary
  monitoringScheduleEmbeddedImageUri : String → Option String
  defaultRepositoryName : String

/-- The mutable attributes of a `Predictor` object (`__init__`, lines 128-140). -/
structure Predictor where
  endpoint_name : String
  component_name : Option String
  serializer : Serializer
  deserializer : Deserializer
  _endpoint_config_name : Option String
  _model_names : Option (List String)
  _content_type : Option ContentTypeVal
  _accept : Option ContentTypeVal

/-- `Predictor.__init__`: the three caches and the two overrides start as `None`. -/
def Predictor.init (endpoint_name : String) (serializer : Serializer)
    (deserializer : Deserializer) (component_name : Option String) : Predictor :=
  { endpoint_name := endpoint_name, component_name := component_name,
    serializer := serializer, deserializer := deserializer,
    _endpoint_config_name := none, _model_names := none,
    _content_type := none, _accept := none }

/-- The `content_type` property (lines 848-851):
`self._content_type or self.serializer.CONTENT_TYPE`. -/
def Predictor.content_type (p : Predictor) : ContentTypeVal :=
  match p._content_type with
  | some v => if ctTruthy v then v else p.serializer.CONTENT_TYPE
  | none => p.serializer.CONTENT_TYPE

/-- The `accept` property (lines 853-856):
`self._accept or self.deserializer.ACCEPT`. -/
def Predictor.accept (p : Predictor) : ContentTypeVal :=
  match p._accept with
  | some v => if ctTruthy v then v else p.deserializer.ACCEPT
  | none => p.deserializer.ACCEPT

/-- The `content_type` setter (lines 858-861). -/
def Predictor.set_content_type (p : Predictor) (val : ContentTypeVal) : Predictor :=
  { p with _content_type := some val }

/-- The `accept` setter (lines 863-866). -/
def Predictor.set_accept (p : Predictor) (val : ContentTypeVal) : Predictor :=
  { p with _accept := some val }

/-- `_get_component_name` (lines 844-846). -/
def Predictor.get_component_name (p : Predictor) : Option String :=
  p.component_name

/-- `_get_endpoint_config_name` (lines 809-817): memoized; resolves through
`describe_endpoint` on a cache miss.  Returns the name, the updated predictor
and the dispatched calls. -/
def _get_endpoint_config_name (env : Env) (p : Predictor) :
    String × Predictor × List Call :=
  match p._endpoint_config_name with
  | some n => (n, p, [])
  | none =>
    let n := env.endpointConfigName p.endpoint_name
    (n, { p with _endpoint_config_name := some n }, [Call.describeEndpoint p.endpoint_name])

/-- `_get_model_names` (lines 819-842): memoized; for a component-scoped
predictor the single model behind the inference component, otherwise the
`ModelName` of every production variant of the current endpoint config. -/
def _get_model_names (env : Env) (p : Predictor) :
    List String × Predictor × List Call :=
  match p._model_names with
  | some names => (names, p, [])
  | none =>
    if strTruthy p.get_component_name then
      let c := p.get_component_name.getD ""
      let names := (env.icSpecModelName c).toList
      (names, { p with _model_names := some names }, [Call.describeInferenceComponent c])
    else
      let ge := _get_endpoint_config_name env p
      let names := (env.configProductionVariants ge.1).filterMap id
      (names, { ge.2.1 with _model_names := some names },
        ge.2.2 ++ [Call.describeEndpointConfig ge.1])

/-- `_create_request_args` (lines 215-285).  Builds the keyword arguments of
the single `invoke_endpoint` call: `initial_args` entries win; `ContentType` /
`Accept` fall back to the embedded jumpstart values when the payload is a
`JumpStartSerializablePayload` with a truthy embedded value, and then to the
`content_type` / `accept` properties (joined when they are tuples); the body
is the jumpstart-serialized bytes for a jumpstart payload (the configured
serializer otherwise). -/
def _create_request_args (env : Env) (p : Predictor) (data : PredictData)
    (initial_args : Option RequestArgs)
    (target_model target_variant inference_id custom_attributes : Option String) :
    RequestArgs :=
  let jumpstart_serialized_data : Option String :=
    match data with
    | .jumpStart payload _ _ => some (env.payloadSerialize payload)
    | .raw _ => none
  let jumpstart_content_type : Option String :=
    match data with
    | .jumpStart _ ct _ => ct
    | .raw _ => none
  let jumpstart_accept : Option String :=
    match data with
    | .jumpStart _ _ ac => ac
    | .raw _ => none
  let args := initial_args.getD RequestArgs.empty
  let args :=
    if args.EndpointName.isNone then { args with EndpointName := some p.endpoint_name }
    else args
  let resolved_content_type : String :=
    if data.isJumpStart && strTruthy jumpstart_content_type then
      jumpstart_content_type.getD ""
    else ctJoin p.content_type
  let resolved_accept : String :=
    if data.isJumpStart && strTruthy jumpstart_accept then
      jumpstart_accept.getD ""
    else ctJoin p.accept
  let args :=
    if args.ContentType.isNone then { args with ContentType := some resolved_content_type }
    else args
  let args :=
    if args.Accept.isNone then { args with Accept := some resolved_accept }
    else args
  let args := if strTruthy target_model then { args with TargetModel := target_model } else args
  let args :=
    if strTruthy target_variant then { args with TargetVariant := target_variant } else args
  let args := if strTruthy inference_id then { args with InferenceId := inference_id } else args
  let args :=
    if strTruthy custom_attributes then { args with CustomAttributes := custom_attributes }
    else args
  let body : String :=
    match jumpstart_serialized_data with
    | some s => if data.isJumpStart && s != "" then s else p.serializer.serializeFn
        (match data with | .raw d => d | .jumpStart d _ _ => d)
    | none => p.serializer.serializeFn (match data with | .raw d => d | .jumpStart d _ _ => d)
  let args :=
    if strTruthy p.get_component_name then
      { args with InferenceComponentName := p.component_name }
    else args
  { args with Body := some body }

/-- The final request arguments of one `predict` call (lines 193-204): the
result of `_create_request_args`, with `InferenceComponentName` overwritten by
the per-call `component_name` argument or the instance-level one when truthy. -/
def predict_request (env : Env) (p : Predictor) (data : PredictData)
    (initial_args : Option RequestArgs)
    (target_model target_variant inference_id custom_attributes component_name :
      Option String) : RequestArgs :=
  let request_args := _create_request_args env p data initial_args target_model
    target_variant inference_id custom_attributes
  let inference_component_name :=
    if strTruthy component_name then component_name else p.get_component_name
  if strTruthy inference_component_name then
    { request_args with InferenceComponentName := inference_component_name }
  else request_args

/-- `_handle_response` (lines 209-213): deserialize the response body with the
response's declared content type, defaulting to `application/octet-stream`. -/
def _handle_response (p : Predictor) (response : InvokeResponse) : String :=
  p.deserializer.deserializeFn response.Body
    (response.ContentType.getD "application/octet-stream")

/-- `predict` (lines 142-207): build the request arguments, dispatch exactly
one `invoke_endpoint` call, deserialize the response. -/
def predict (env : Env) (p : Predictor) (data : PredictData)
    (initial_args : Option RequestArgs)
    (target_model target_variant inference_id custom_attributes component_name :
      Option String) : String × List Call :=
  let request_args := predict_request env p data initial_args target_model target_variant
    inference_id custom_attributes component_name
  let response := env.invoke request_args
  (_handle_response p response, [Call.invokeEndpoint request_args])

/-- The Python exceptions this file raises, with the data their messages carry. -/
inductive PredictorError
  | missingInstanceInfo (initial_instance_count : Option Nat)
      (instance_type accelerator_type model_name : Option String)
  | multipleModels (model_names : List String)
  | indexErrorNoModels
  | noInferenceComponent
  | attributeErrorNoneCopyCount
  | deleteModelsFailed (failed_models : List String)
  | unknownMonitoringType (monitoring_type : Option String)
deriving DecidableEq

/-- `str(x)` for an optional string argument interpolated into a message. -/
def pyStr : Option String → String
  | some s => s
  | none => "None"

/-- `str(x)` for an optional int argument interpolated into a message. -/
def pyStrNat : Option Nat → String
  | some n => toString n
  | none => "None"

/-- The message of each raised exception, following the `format` strings of
lines 352-361, 365-370, 493-496, 642-645 and 769. -/
def error_message : PredictorError → String
  | .missingInstanceInfo iic it at_ mn =>
      "Missing initial_instance_count and/or instance_type. Provided values: " ++
        "initial_instance_count=" ++ pyStrNat iic ++ ", instance_type=" ++ pyStr it ++
        ", accelerator_type=" ++ pyStr at_ ++ ", model_name=" ++ pyStr mn ++ "."
  | .multipleModels names =>
      "Unable to choose a default model for a new EndpointConfig because " ++
        "the endpoint has multiple models: " ++ String.intercalate ", " names
  | .indexErrorNoModels => "list index out of range"
  | .noInferenceComponent =>
      "No inference component exists for the specified model. " ++
        "Ensure that you deployed the inference component, and try again."
  | .attributeErrorNoneCopyCount =>
      "AttributeError: NoneType object has no attribute copy_count"
  | .deleteModelsFailed failed =>
      "One or more models cannot be deleted, please retry. \nFailed models: " ++
        String.intercalate ", " failed
  | .unknownMonitoringType mt => "Unknown monitoring type: " ++ pyStr mt

/-- Lines 398-418 of `update_endpoint`, shared by the with- and without-variant
paths: resolve the current config name, derive the new one with
`name_from_base`, dispatch `create_endpoint_config_from_existing` and
`update_endpoint`, and overwrite the memoized config name. -/
def update_endpoint_finish (env : Env) (p : Predictor)
    (production_variants : Option (List ProductionVariant)) (calls : List Call)
    (tags : Option Tags) (kms_key : Option String)
    (data_capture_config_dict : Option DataCaptureConfigDict) (wait : Bool) :
    Except (PredictorError × List Call) (Predictor × List Call) :=
  let ge := _get_endpoint_config_name env p
  let current_endpoint_config_name := ge.1
  let p2 := ge.2.1
  let new_endpoint_config_name := env.freshName current_endpoint_config_name
  let endpoint_type :=
    if strTruthy p2.get_component_name then EndpointType.INFERENCE_COMPONENT_BASED
    else EndpointType.MODEL_BASED
  .ok ({ p2 with _endpoint_config_name := some new_endpoint_config_name },
    calls ++ ge.2.2 ++
      [Call.createEndpointConfigFromExisting current_endpoint_config_name
          new_endpoint_config_name tags kms_key data_capture_config_dict
          production_variants (some endpoint_type),
        Call.updateEndpointCall p2.endpoint_name new_endpoint_config_name wait])

/-- Lines 375-396 of `update_endpoint`: the `ManagedInstanceScaling` dict gets
a key per truthy bound, and `production_variant` is called with the scaling
sub-structure iff that dict is non-empty. -/
def new_production_variant (m : String) (instance_type : Option String)
    (initial_instance_count : Option Nat) (accelerator_type : Option String)
    (max_instance_count min_instance_count : Option Nat) : ProductionVariant :=
  let managed_instance_scaling : ManagedInstanceScaling :=
    { MaxInstanceCount := if natTruthy max_instance_count then max_instance_count
        else none,
      MinInstanceCount := if natTruthy min_instance_count then min_instance_count
        else none }
  if natTruthy max_instance_count || natTruthy min_instance_count then
    { ModelName := m, InstanceType := instance_type.getD "",
      InitialInstanceCount := initial_instance_count.getD 0,
      AcceleratorType := accelerator_type,
      ManagedInstanceScaling := some managed_instance_scaling }
  else
    { ModelName := m, InstanceType := instance_type.getD "",
      InitialInstanceCount := initial_instance_count.getD 0,
      AcceleratorType := accelerator_type,
      ManagedInstanceScaling := none }

/-- `update_endpoint` (lines 287-418).  Python truthiness governs the
"any new-variant argument given" test (line 350) while the validation inside
the branch tests `is None` (line 351); a missing `model_name` defaults to the
single current model (error with the model list if there are several, an
`IndexError` if there are none); giving `model_name` overwrites the memoized
model list.  Errors carry the calls dispatched before the raise. -/
def update_endpoint (env : Env) (p : Predictor)
    (initial_instance_count : Option Nat)
    (instance_type accelerator_type model_name : Option String)
    (tags : Option Tags) (kms_key : Option String)
    (data_capture_config_dict : Option DataCaptureConfigDict)
    (max_instance_count min_instance_count : Option Nat) (wait : Bool) :
    Except (PredictorError × List Call) (Predictor × List Call) :=
  let gm := _get_model_names env p
  let current_model_names := gm.1
  let p1 := gm.2.1
  let calls1 := gm.2.2
  if natTruthy initial_instance_count || strTruthy instance_type ||
      strTruthy accelerator_type || strTruthy model_name then
    if instance_type.isNone || initial_instance_count.isNone then
      .error (.missingInstanceInfo initial_instance_count instance_type
        accelerator_type model_name, calls1)
    else
      let resolved : Except (PredictorError × List Call) (String × Predictor) :=
        match model_name with
        | some m => .ok (m, { p1 with _model_names := some [m] })
        | none =>
          if current_model_names.length > 1 then
            .error (.multipleModels current_model_names, calls1)
          else
            match current_model_names with
            | [] => .error (.indexErrorNoModels, calls1)
            | m :: _ => .ok (m, p1)
      match resolved with
      | .error e => .error e
      | .ok (m, p2) =>
        update_endpoint_finish env p2
          (some [new_production_variant m instance_type initial_instance_count
            accelerator_type max_instance_count min_instance_count])
          calls1 tags kms_key data_capture_config_dict wait
  else
    update_endpoint_finish env p1 none calls1 tags kms_key data_capture_config_dict wait

/-- The empty-value pruning loop of lines 537-543: every `specification` entry
whose value is falsy (empty sub-dict, empty string, empty list) is deleted. -/
def pruneSpecification (container : ICContainer) (startup : ICStartupParameters)
    (model_name : Option String)
    (compute_resource_requirements : Option (List (String × String))) :
    ICSpecification :=
  { Container := if container.isEmptyDict then none else some container,
    StartupParameters := if startup.isEmptyDict then none else some startup,
    ModelName :=
      match model_name with
      | some s => if s == "" then none else some s
      | none => none,
    ComputeResourceRequirements :=
      match compute_resource_requirements with
      | some l => if l.isEmpty then none else some l
      | none => none }

/-- `update_predictor` (lines 455-545).  Raises `ValueError` when the predictor
has no inference component (line 492); builds the specification with
`ModelName` XOR container fields (lines 511-522); accesses
`resources.copy_count` unconditionally at line 524, an `AttributeError` when
`resources` is `None`; prunes empty sub-structures; dispatches one
`update_inference_component` call.  Errors carry the (empty) list of calls
dispatched before the raise. -/
def update_predictor (p : Predictor) (model_name image_uri model_data : Option String)
    (env : Option (List (String × String)))
    (model_data_download_timeout container_startup_health_check_timeout : Option Nat)
    (resources : Option ResourceRequirements) :
    Except (PredictorError × List Call) (ICRequest × List Call) :=
  match p.component_name with
  | none => .error (.noInferenceComponent, [])
  | some component_name =>
    let compute_resource_requirements : Option (List (String × String)) :=
      match resources with
      | some r => some r.requests
      | none => none
    let container : ICContainer :=
      if strTruthy model_name then
        { Image := none, Environment := none, ArtifactUrl := none }
      else
        { Image := if strTruthy image_uri then image_uri else none,
          Environment := if listTruthy env then env else none,
          ArtifactUrl := if strTruthy model_data then model_data else none }
    let spec_model_name : Option String :=
      if strTruthy model_name then model_name else none
    match resources with
    | none => .error (.attributeErrorNoneCopyCount, [])
    | some r =>
      let runtime_config : Option Nat :=
        if natTruthy r.copy_count then r.copy_count else none
      let startup : ICStartupParameters :=
        { ModelDataDownloadTimeoutInSeconds :=
            if natTruthy model_data_download_timeout then model_data_download_timeout
            else none,
          ContainerStartupHealthCheckTimeoutInSeconds :=
            if natTruthy container_startup_health_check_timeout then
              container_startup_health_check_timeout
            else none }
      let request : ICRequest :=
        { inference_component_name := component_name,
          specification :=
            pruneSpecification container startup spec_model_name
              compute_resource_requirements,
          runtime_config := runtime_config }
      .ok (request, [Call.updateInferenceComponent request])

/-- The `for model_name in current_model_names` loop of lines 634-639: one
`delete_model` call per name in order, collecting the names whose deletion
raised. -/
def delete_model_loop (env : Env) : List String → List Call × List String
  | [] => ([], [])
  | n :: rest =>
    let r := delete_model_loop env rest
    (Call.deleteModelCall n :: r.1, if env.deleteModelOk n then r.2 else n :: r.2)

/-- `delete_model` (lines 629-645): attempt a deletion for every backing model
name, then raise one aggregate error listing the failed names iff any
deletion failed. -/
def delete_model (env : Env) (p : Predictor) :
    Except (PredictorError × List Call) (Predictor × List Call) :=
  let gm := _get_model_names env p
  let r := delete_model_loop env gm.1
  if r.2.isEmpty then .ok (gm.2.1, gm.2.2 ++ r.1)
  else .error (.deleteModelsFailed r.2, gm.2.2 ++ r.1)

/-- `update_data_capture_config` (lines 673-700): a fresh `describe_endpoint`
(the memoized name is not consulted), a new config name derived from the
endpoint name, `create_endpoint_config_from_existing` with only the new data
capture dict, and `update_endpoint`; no memoized field is touched. -/
def update_data_capture_config (env : Env) (p : Predictor)
    (data_capture_config : Option DataCaptureConfig) : Predictor × List Call :=
  let existing_config_name := env.endpointConfigName p.endpoint_name
  let new_config_name := env.freshName p.endpoint_name
  let data_capture_config_dict : Option DataCaptureConfigDict :=
    match data_capture_config with
    | some c => some c.to_request_dict
    | none => none
  (p,
    [Call.describeEndpoint p.endpoint_name,
      Call.createEndpointConfigFromExisting existing_config_name new_config_name
        none none data_capture_config_dict none none,
      Call.updateEndpointCall p.endpoint_name new_config_name true])

/-- `enable_data_capture` (lines 647-658). -/
def enable_data_capture (env : Env) (p : Predictor) : Predictor × List Call :=
  update_data_capture_config env p (some { enable_capture := true })

/-- `disable_data_capture` (lines 660-671). -/
def disable_data_capture (env : Env) (p : Predictor) : Predictor × List Call :=
  update_data_capture_config env p (some { enable_capture := false })

/-- `_get_model_monitor_class` (lines 734-770): explicit bias/explainability
tags first (no remote call); otherwise describe the schedule and classify a
legacy embedded job definition by its image-name suffix; otherwise classify
the data-quality/model-quality tags; otherwise `TypeError`. -/
def _get_model_monitor_class (env : Env) (schedule_name : String)
    (monitoring_type : Option String) :
    Except (PredictorError × List Call) (MonitorClass × List Call) :=
  if monitoring_type = some "ModelBias" then .ok (.ModelBiasMonitor, [])
  else if monitoring_type = some "ModelExplainability" then
    .ok (.ModelExplainabilityMonitor, [])
  else
    let calls := [Call.describeMonitoringSchedule schedule_name]
    match env.monitoringScheduleEmbeddedImageUri schedule_name with
    | some image_uri =>
      if image_uri.endsWith env.defaultRepositoryName then .ok (.DefaultModelMonitor, calls)
      else .ok (.ModelMonitor, calls)
    | none =>
      if monitoring_type = some "DataQuality" then .ok (.DefaultModelMonitor, calls)
      else if monitoring_type = some "ModelQuality" then .ok (.ModelQualityMonitor, calls)
      else .error (.unknownMonitoringType monitoring_type, calls)

/-- The `for schedule_dict in ...` loop of lines 720-730: classify each summary
in order and attach it (`clazz.attach` is external; an attached monitor is
modelled by its class together with the schedule name). -/
def attach_monitors (env : Env) : List ScheduleSummary →
    Except (PredictorError × List Call) (List (MonitorClass × String) × List Call)
  | [] => .ok ([], [])
  | s :: rest =>
    match _get_model_monitor_class env s.MonitoringScheduleName s.MonitoringType with
    | .error e => .error e
    | .ok (c, cs) =>
      match attach_monitors env rest with
      | .error (e, cs2) => .error (e, cs ++ cs2)
      | .ok (ms, cs2) => .ok ((c, s.MonitoringScheduleName) :: ms, cs ++ cs2)

/-- `list_monitors` (lines 702-732): zero schedules yields an empty list
without raising; otherwise each schedule is classified and attached. -/
def list_monitors (env : Env) (p : Predictor) :
    Except (PredictorError × List Call) (List (MonitorClass × String) × List Call) :=
  let summaries := env.monitoringScheduleSummaries p.endpoint_name
  let call0 := [Call.listMonitoringSchedules p.endpoint_name]
  if summaries.length = 0 then .ok ([], call0)
  else
    match attach_monitors env summaries with
    | .error (e, cs) => .error (e, call0 ++ cs)
    | .ok (ms, cs) => .ok (ms, call0 ++ cs)

/-! ### Spec-side resolution functions and concrete fixtures -/

/-- The `ContentType` resolution order exactly as the specification states it:
explicit `initial_args` value, else the embedded jumpstart value, else the
serializer's `CONTENT_TYPE` (tuples joined with `", "`). -/
def claimed_resolved_content_type (p : Predictor) (data : PredictData)
    (initial_args : Option RequestArgs) : String :=
  match initial_args.bind (fun a => a.ContentType) with
  | some v => v
  | none =>
    match data with
    | .jumpStart _ (some ct) _ =>
      if ct != "" then ct else ctJoin p.serializer.CONTENT_TYPE
    | _ => ctJoin p.serializer.CONTENT_TYPE

/-- The `Accept` resolution order exactly as the specification states it, with
the deserializer's `ACCEPT` as the final fallback. -/
def claimed_resolved_accept (p : Predictor) (data : PredictData)
    (initial_args : Option RequestArgs) : String :=
  match initial_args.bind (fun a => a.Accept) with
  | some v => v
  | none =>
    match data with
    | .jumpStart _ _ (some ac) =>
      if ac != "" then ac else ctJoin p.deserializer.ACCEPT
    | _ => ctJoin p.deserializer.ACCEPT

/-- The `ContentType` resolution order the code actually implements: the final
fallback is the `content_type` property — the value installed by the
`content_type` setter when truthy, else the serializer's `CONTENT_TYPE`. -/
def amended_resolved_content_type (p : Predictor) (data : PredictData)
    (initial_args : Option RequestArgs) : String :=
  match initial_args.bind (fun a => a.ContentType) with
  | some v => v
  | none =>
    match data with
    | .jumpStart _ (some ct) _ => if ct != "" then ct else ctJoin p.content_type
    | _ => ctJoin p.content_type

/-- The `Accept` resolution order the code actually implements, with the
`accept` property as the final fallback. -/
def amended_resolved_accept (p : Predictor) (data : PredictData)
    (initial_args : Option RequestArgs) : String :=
  match initial_args.bind (fun a => a.Accept) with
  | some v => v
  | none =>
    match data with
    | .jumpStart _ _ (some ac) => if ac != "" then ac else ctJoin p.accept
    | _ => ctJoin p.accept

/-- A CSV serializer fixture. -/
def serializerCsv : Serializer :=
  { CONTENT_TYPE := .str "text/csv", serializeFn := fun s => s }

/-- A JSON deserializer fixture. -/
def deserializerJson : Deserializer :=
  { ACCEPT := .str "application/json", deserializeFn := fun b _ => b }

/-- A concrete environment fixture. -/
def envFix : Env :=
  { payloadSerialize := fun s => s,
    invoke := fun _ => { Body := "resp", ContentType := none },
    endpointConfigName := fun _ => "my-endpoint-config",
    configProductionVariants := fun _ => [some "model-a"],
    icSpecModelName := fun _ => some "ic-model",
    deleteModelOk := fun _ => true,
    freshName := fun s => s ++ "-2026",
    monitoringScheduleSummaries := fun _ => [],
    monitoringScheduleEmbeddedImageUri := fun _ => none,
    defaultRepositoryName := "sagemaker-model-monitor-analyzer" }

/-- A freshly constructed predictor with no inference component. -/
def pFresh : Predictor :=
  Predictor.init "my-endpoint" serializerCsv deserializerJson none

/-- A predictor whose `content_type` setter has been used. -/
def pOverride : Predictor :=
  pFresh.set_content_type (.str "application/x-override")

/-- A predictor whose two memoized names are already resolved. -/
def pWarm : Predictor :=
  { pFresh with _model_names := some ["model-a"], _endpoint_config_name := some "cfg-a" }

/-- A predictor backing two models (memoized). -/
def pTwoModels : Predictor :=
  { pFresh with
    _model_names := some ["model-a", "model-b"]
    _endpoint_config_name := some "cfg-a" }

/-- A component-scoped predictor. -/
def pComp : Predictor :=
  Predictor.init "my-endpoint" serializerCsv deserializerJson (some "comp-1")

/-- Concrete resource requirements. -/
def rFix : ResourceRequirements :=
  { copy_count := some 2, requests := [("NumCpus", "1")] }

/-! ### Helper lemmas -/

theorem natTruthy_not_isNone {o : Option Nat} (h : natTruthy o = true) :
    o.isNone = false := by
  cases o with
  | none => simp [natTruthy] at h
  | some n => rfl

theorem strTruthy_not_isNone {o : Option String} (h : strTruthy o = true) :
    o.isNone = false := by
  cases o with
  | none => simp [strTruthy] at h
  | some s => rfl

/-- `_get_endpoint_config_name` returns the memoized name or the described one,
touches nothing but the memoized field, and dispatches describe calls only. -/
theorem get_endpoint_config_name_spec (env : Env) (p : Predictor) :
    (_get_endpoint_config_name env p).1
        = p._endpoint_config_name.getD (env.endpointConfigName p.endpoint_name)
  ∧ (_get_endpoint_config_name env p).2.1.endpoint_name = p.endpoint_name
  ∧ (_get_endpoint_config_name env p).2.1.component_name = p.component_name
  ∧ ∀ c ∈ (_get_endpoint_config_name env p).2.2, c.isConfigMutation = false := by
  cases h : p._endpoint_config_name <;>
    simp [_get_endpoint_config_name, h, Call.isConfigMutation]

/-- `_get_model_names` touches only the memoized fields, leaves the resolved
config name invariant, and dispatches describe calls only. -/
theorem get_model_names_state_spec (env : Env) (p : Predictor) :
    (_get_model_names env p).2.1.endpoint_name = p.endpoint_name
  ∧ (_get_model_names env p).2.1.component_name = p.component_name
  ∧ (_get_model_names env p).2.1._endpoint_config_name.getD
        (env.endpointConfigName p.endpoint_name)
      = p._endpoint_config_name.getD (env.endpointConfigName p.endpoint_name)
  ∧ ∀ c ∈ (_get_model_names env p).2.2, c.isConfigMutation = false := by
  cases hm : p._model_names with
  | some names => simp [_get_model_names, hm]
  | none =>
    by_cases hc : strTruthy p.get_component_name = true
    · simp [_get_model_names, hm, hc, Call.isConfigMutation]
    · cases he : p._endpoint_config_name <;>
        simp [_get_model_names, hm, hc, _get_endpoint_config_name, he,
          Call.isConfigMutation]

/-! ### Claim theorems -/

/-- C1 (counterexample): a predictor whose public `content_type` setter has
been used refutes the claimed resolution order — with no `initial_args`
override and an ordinary payload, the outgoing `ContentType` is the
setter-installed value, not the serializer's `CONTENT_TYPE` the claim
prescribes. -/
theorem c1_counterexample :
    (predict_request envFix pOverride (.raw "x") none none none none none none).ContentType
        = some "application/x-override"
  ∧ claimed_resolved_content_type pOverride (.raw "x") none = "text/csv"
  ∧ ("application/x-override" : String) ≠ "text/csv" :=
  ⟨rfl, rfl, by decide⟩

/-- C7: `update_predictor` on a predictor without an inference component name
raises `ValueError` before dispatching any remote call. -/
theorem c7_requires_component (p : Predictor) (h : p.component_name = none)
    (model_name image_uri model_data : Option String)
    (env : Option (List (String × String)))
    (model_data_download_timeout container_startup_health_check_timeout : Option Nat)
    (resources : Option ResourceRequirements) :
    update_predictor p model_name image_uri model_data env model_data_download_timeout
        container_startup_health_check_timeout resources
      = .error (.noInferenceComponent, []) := by
  simp [update_predictor, h]

/-- C7 (witness): the error at a concrete component-less predictor. -/
theorem c7_requires_component_witness :
    update_predictor pFresh (some "m") none none none none none (some rFix)
      = .error (.noInferenceComponent, []) :=
  c7_requires_component pFresh rfl (some "m") none none none none none (some rFix)

/-- C9: on a component-scoped predictor, leaving `resources` as `None` makes
`update_predictor` fail with the `AttributeError` raised by the unconditional
`resources.copy_count` access of line 524, before the
`update_inference_component` call is dispatched. -/
theorem c9_resources_none_attribute_error (p : Predictor) (component : String)
    (h : p.component_name = some component)
    (model_name image_uri model_data : Option String)
    (env : Option (List (String × String)))
    (model_data_download_timeout container_startup_health_check_timeout : Option Nat) :
    update_predictor p model_name image_uri model_data env model_data_download_timeout
        container_startup_health_check_timeout none
      = .error (.attributeErrorNoneCopyCount, []) := by
  simp [update_predictor, h]

/-- C9 (witness): the `AttributeError` at a concrete component-scoped
predictor called with every argument left at its default. -/
theorem c9_resources_none_attribute_error_witness :
    update_predictor pComp none none none none none none none
      = .error (.attributeErrorNoneCopyCount, []) :=
  c9_resources_none_attribute_error pComp "comp-1" rfl none none none none none none

/-- C10: `update_data_capture_config` creates a new endpoint config and
repoints the endpoint at it, yet leaves the whole predictor — in particular
the memoized `_endpoint_config_name` — unchanged; `enable_data_capture` and
`disable_data_capture` delegate to it with a constructed capture config. -/
theorem c10_data_capture_keeps_cached_config_name (env : Env) (p : Predictor)
    (data_capture_config : Option DataCaptureConfig) :
    update_data_capture_config env p data_capture_config
        = (p, [Call.describeEndpoint p.endpoint_name,
            Call.createEndpointConfigFromExisting
              (env.endpointConfigName p.endpoint_name) (env.freshName p.endpoint_name)
              none none
              (match data_capture_config with
                | some c => some c.to_request_dict
                | none => none)
              none none,
            Call.updateEndpointCall p.endpoint_name (env.freshName p.endpoint_name) true])
  ∧ (update_data_capture_config env p data_capture_config).1._endpoint_config_name
        = p._endpoint_config_name
  ∧ enable_data_capture env p
        = update_data_capture_config env p (some { enable_capture := true })
  ∧ disable_data_capture env p
        = update_data_capture_config env p (some { enable_capture := false }) :=
  ⟨rfl, rfl, rfl, rfl⟩

/-- C2 (counterexample): `initial_instance_count=0` is a supplied value, and
`instance_type` is `None`, yet the call raises nothing — `0` is falsy, so the
validation branch is skipped and both the endpoint-config creation and the
endpoint update are dispatched. -/
theorem c2_counterexample :
    (some 0 : Option Nat).isSome = true
  ∧ update_endpoint envFix pWarm (some 0) none none none none none none none none true
      = .ok ({ pWarm with _endpoint_config_name := some "cfg-a-2026" },
          [Call.createEndpointConfigFromExisting "cfg-a" "cfg-a-2026" none none none
              none (some EndpointType.MODEL_BASED),
            Call.updateEndpointCall "my-endpoint" "cfg-a-2026" true]) :=
  ⟨rfl, rfl⟩

/-- The deletion loop attempts one `delete_model` call per name, in order. -/
theorem delete_model_loop_calls (env : Env) (l : List String) :
    (delete_model_loop env l).1 = l.map Call.deleteModelCall := by
  induction l with
  | nil => rfl
  | cons n rest ih => simp [delete_model_loop, ih]

/-- The deletion loop collects exactly the names whose deletion failed, in
order. -/
theorem delete_model_loop_failed (env : Env) (l : List String) :
    (delete_model_loop env l).2 = l.filter (fun n => !env.deleteModelOk n) := by
  induction l with
  | nil => rfl
  | cons n rest ih =>
    cases h : env.deleteModelOk n <;> simp [delete_model_loop, List.filter_cons, h, ih]

/-- C5: `delete_model` attempts a deletion for every backing model name even
when earlier deletions fail, raises iff at least one deletion failed, and the
single aggregate error lists exactly the names whose deletion failed. -/
theorem c5_delete_model_aggregate (env : Env) (p : Predictor) :
    delete_model env p
        = (if ((_get_model_names env p).1.filter
              (fun n => !env.deleteModelOk n)).isEmpty then
            .ok ((_get_model_names env p).2.1,
              (_get_model_names env p).2.2 ++
                (_get_model_names env p).1.map Call.deleteModelCall)
          else
            .error (.deleteModelsFailed
                ((_get_model_names env p).1.filter (fun n => !env.deleteModelOk n)),
              (_get_model_names env p).2.2 ++
                (_get_model_names env p).1.map Call.deleteModelCall))
  ∧ (((_get_model_names env p).1.filter (fun n => !env.deleteModelOk n)).isEmpty = false
      ↔ ∃ n ∈ (_get_model_names env p).1, env.deleteModelOk n = false)
  ∧ error_message (.deleteModelsFailed
        ((_get_model_names env p).1.filter (fun n => !env.deleteModelOk n)))
      = "One or more models cannot be deleted, please retry. \nFailed models: " ++
          String.intercalate ", "
            ((_get_model_names env p).1.filter (fun n => !env.deleteModelOk n)) := by
  refine ⟨?_, ?_, rfl⟩
  · rw [delete_model, ← delete_model_loop_calls env (_get_model_names env p).1,
      ← delete_model_loop_failed env (_get_model_names env p).1]
  · simp [List.isEmpty_eq_false_iff_exists_mem]

/-- C6: when `model_name` is given, the dispatched inference-component update
carries `ModelName` and no `Container` sub-structure — even when `image_uri`,
`env` or `model_data` are also supplied — because the container dict stays
empty and the pruning loop removes it. -/
theorem c6_model_name_excludes_container (p : Predictor) (component m : String)
    (hc : p.component_name = some component) (hm : m ≠ "")
    (image_uri model_data : Option String) (env : Option (List (String × String)))
    (model_data_download_timeout container_startup_health_check_timeout : Option Nat)
    (r : ResourceRequirements) :
    ∃ request : ICRequest,
      update_predictor p (some m) image_uri model_data env model_data_download_timeout
          container_startup_health_check_timeout (some r)
        = .ok (request, [Call.updateInferenceComponent request])
      ∧ request.specification.ModelName = some m
      ∧ request.specification.Container = none := by
  have hstr : strTruthy (some m) = true := by simp [strTruthy, hm]
  simp only [update_predictor, hc, hstr, if_true]
  exact ⟨_, rfl, by simp [pruneSpecification, hm], by simp [pruneSpecification,
    ICContainer.isEmptyDict]⟩

/-- C6 (witness): the request at a concrete component-scoped predictor with
both `model_name` and `image_uri` supplied carries `ModelName = "model-b"` and
no `Container`. -/
theorem c6_model_name_excludes_container_witness :
    (update_predictor pComp (some "model-b") (some "img-uri") none none none none
        (some rFix)).map
        (fun x => (x.1.specification.ModelName, x.1.specification.Container))
      = .ok (some "model-b", none) := by
  obtain ⟨request, h1, h2, h3⟩ :=
    c6_model_name_excludes_container pComp "comp-1" "model-b" rfl (by decide)
      (some "img-uri") none none none none rFix
  rw [h1]
  simp [Except.map, h2, h3]

/-- C8: `list_monitors` with zero schedules returns an empty list without
raising; otherwise each schedule is classified with this precedence —
`ModelBias`/`ModelExplainability` tags first (no describe call), then a legacy
embedded job definition by image-name suffix, then the
`DataQuality`/`ModelQuality` tags, else an unrecognized-monitoring-type
error. -/
theorem c8_monitor_classification :
    (∀ (env : Env) (p : Predictor),
        env.monitoringScheduleSummaries p.endpoint_name = [] →
        list_monitors env p = .ok ([], [Call.listMonitoringSchedules p.endpoint_name]))
  ∧ (∀ (env : Env) (n : String),
        _get_model_monitor_class env n (some "ModelBias")
          = .ok (.ModelBiasMonitor, []))
  ∧ (∀ (env : Env) (n : String),
        _get_model_monitor_class env n (some "ModelExplainability")
          = .ok (.ModelExplainabilityMonitor, []))
  ∧ (∀ (env : Env) (n : String) (mt : Option String) (uri : String),
        mt ≠ some "ModelBias" → mt ≠ some "ModelExplainability" →
        env.monitoringScheduleEmbeddedImageUri n = some uri →
        _get_model_monitor_class env n mt
          = .ok (if uri.endsWith env.defaultRepositoryName then .DefaultModelMonitor
              else .ModelMonitor, [Call.describeMonitoringSchedule n]))
  ∧ (∀ (env : Env) (n : String),
        env.monitoringScheduleEmbeddedImageUri n = none →
        _get_model_monitor_class env n (some "DataQuality")
          = .ok (.DefaultModelMonitor, [Call.describeMonitoringSchedule n]))
  ∧ (∀ (env : Env) (n : String),
        env.monitoringScheduleEmbeddedImageUri n = none →
        _get_model_monitor_class env n (some "ModelQuality")
          = .ok (.ModelQualityMonitor, [Call.describeMonitoringSchedule n]))
  ∧ (∀ (env : Env) (n : String) (mt : Option String),
        mt ≠ some "ModelBias" → mt ≠ some "ModelExplainability" →
        mt ≠ some "DataQuality" → mt ≠ some "ModelQuality" →
        env.monitoringScheduleEmbeddedImageUri n = none →
        _get_model_monitor_class env n mt
          = .error (.unknownMonitoringType mt, [Call.describeMonitoringSchedule n]))
  ∧ (∀ (env : Env) (p : Predictor) (s : ScheduleSummary) (c : MonitorClass)
        (cs : List Call),
        env.monitoringScheduleSummaries p.endpoint_name = [s] →
        _get_model_monitor_class env s.MonitoringScheduleName s.MonitoringType
          = .ok (c, cs) →
        list_monitors env p
          = .ok ([(c, s.MonitoringScheduleName)],
              Call.listMonitoringSchedules p.endpoint_name :: cs)) := by
  refine ⟨?_, ?_, ?_, ?_, ?_, ?_, ?_, ?_⟩
  · intro env p h
    simp [list_monitors, h]
  · intro env n
    simp [_get_model_monitor_class]
  · intro env n
    simp [_get_model_monitor_class]
  · intro env n mt uri h1 h2 h3
    simp only [_get_model_monitor_class, h1, h2, h3, if_neg, not_false_eq_true]
    split <;> rfl
  · intro env n h
    simp [_get_model_monitor_class, h]
  · intro env n h
    simp [_get_model_monitor_class, h]
  · intro env n mt h1 h2 h3 h4 h
    simp [_get_model_monitor_class, h1, h2, h3, h4, h]
  · intro env p s c cs h1 h2
    simp [list_monitors, h1, attach_monitors, h2]

/-- C8 (witness): an endpoint with zero monitoring schedules yields an empty
list and no error. -/
theorem c8_monitor_classification_witness :
    list_monitors envFix pFresh = .ok ([], [Call.listMonitoringSchedules "my-endpoint"]) :=
  c8_monitor_classification.1 envFix pFresh rfl

/-- C2 (amended): when at least one of the four new-variant arguments is
supplied with a truthy value (non-`None`, non-zero, non-empty) and
`instance_type` or `initial_instance_count` is `None`, `update_endpoint`
raises `ValueError` and dispatches neither the endpoint-config creation nor
the endpoint update (only the describe calls of the model-name lookup
precede the raise). -/
theorem c2_missing_instance_info_amended (env : Env) (p : Predictor)
    (initial_instance_count : Option Nat)
    (instance_type accelerator_type model_name : Option String)
    (tags : Option Tags) (kms_key : Option String)
    (data_capture_config_dict : Option DataCaptureConfigDict)
    (max_instance_count min_instance_count : Option Nat) (wait : Bool)
    (h1 : (natTruthy initial_instance_count || strTruthy instance_type ||
        strTruthy accelerator_type || strTruthy model_name) = true)
    (h2 : (instance_type.isNone || initial_instance_count.isNone) = true) :
    update_endpoint env p initial_instance_count instance_type accelerator_type
        model_name tags kms_key data_capture_config_dict max_instance_count
        min_instance_count wait
      = .error (.missingInstanceInfo initial_instance_count instance_type
          accelerator_type model_name, (_get_model_names env p).2.2)
  ∧ ∀ c ∈ (_get_model_names env p).2.2, c.isConfigMutation = false := by
  refine ⟨?_, (get_model_names_state_spec env p).2.2.2⟩
  simp [update_endpoint, h1, h2]

/-- C2 (witness): the spec's own example — `instance_type` supplied without
`initial_instance_count` — raises the invalid-argument error with no
config-mutating call. -/
theorem c2_missing_instance_info_witness :
    update_endpoint envFix pWarm none (some "ml.m5.large") none none none none none
        none none true
      = .error (.missingInstanceInfo none (some "ml.m5.large") none none, [])
  ∧ ∀ c ∈ ([] : List Call), c.isConfigMutation = false :=
  c2_missing_instance_info_amended envFix pWarm none (some "ml.m5.large") none none
    none none none none none true (by decide) (by decide)

/-- C3: with truthy `instance_type` and `initial_instance_count` and no
`model_name`, an endpoint backing several models raises the
ambiguous-configuration error whose message names every model, and an
endpoint backing exactly one model uses that model as the new production
variant's `ModelName`. -/
theorem c3_model_name_defaulting (env : Env) (p : Predictor)
    (initial_instance_count : Option Nat) (instance_type : Option String)
    (tags : Option Tags) (kms_key : Option String)
    (data_capture_config_dict : Option DataCaptureConfigDict)
    (max_instance_count min_instance_count : Option Nat) (wait : Bool)
    (h1 : natTruthy initial_instance_count = true)
    (h2 : strTruthy instance_type = true) :
    ((_get_model_names env p).1.length > 1 →
      update_endpoint env p initial_instance_count instance_type none none tags
          kms_key data_capture_config_dict max_instance_count min_instance_count wait
        = .error (.multipleModels (_get_model_names env p).1,
            (_get_model_names env p).2.2)
      ∧ error_message (.multipleModels (_get_model_names env p).1)
          = "Unable to choose a default model for a new EndpointConfig because " ++
              "the endpoint has multiple models: " ++
              String.intercalate ", " (_get_model_names env p).1)
  ∧ ∀ m, (_get_model_names env p).1 = [m] →
      ∃ (p' : Predictor) (calls : List Call),
        update_endpoint env p initial_instance_count instance_type none none tags
            kms_key data_capture_config_dict max_instance_count min_instance_count wait
          = .ok (p', calls)
        ∧ ∃ (pv : ProductionVariant) (cur : String) (et : Option EndpointType),
            pv.ModelName = m
            ∧ Call.createEndpointConfigFromExisting cur (env.freshName cur) tags
                kms_key data_capture_config_dict (some [pv]) et ∈ calls := by
  have h1n : initial_instance_count.isNone = false := natTruthy_not_isNone h1
  have h2n : instance_type.isNone = false := strTruthy_not_isNone h2
  constructor
  · intro hlen
    refine ⟨?_, rfl⟩
    simp [update_endpoint, h1, h2, h1n, h2n, hlen]
  · intro m hm
    simp only [update_endpoint, h1, h2, h1n, h2n, hm, Bool.true_or, Bool.or_true,
      Bool.or_false, Bool.false_or, List.length_cons, List.length_nil, gt_iff_lt,
      Nat.lt_irrefl, if_false, if_true, update_endpoint_finish, Bool.false_eq_true,
      decide_True, decide_False, ite_true, ite_false]
    refine ⟨_, _, rfl,
      new_production_variant m instance_type initial_instance_count none
        max_instance_count min_instance_count,
      (_get_endpoint_config_name env (_get_model_names env p).2.1).1,
      some (if strTruthy (_get_endpoint_config_name env
          (_get_model_names env p).2.1).2.1.get_component_name = true then
        EndpointType.INFERENCE_COMPONENT_BASED else EndpointType.MODEL_BASED),
      ?_, ?_⟩
    · simp only [new_production_variant]
      split <;> rfl
    · simp

/-- C3 (witness): two memoized models and no `model_name` raise the
ambiguous-configuration error listing both; one memoized model is used as the
new variant's model. -/
theorem c3_model_name_defaulting_witness :
    (update_endpoint envFix pTwoModels (some 1) (some "ml.m5.large") none none none
        none none none none true
      = .error (.multipleModels ["model-a", "model-b"], [])
    ∧ error_message (.multipleModels ["model-a", "model-b"])
        = "Unable to choose a default model for a new EndpointConfig because " ++
            "the endpoint has multiple models: " ++
            String.intercalate ", " ["model-a", "model-b"]) :=
  (c3_model_name_defaulting envFix pTwoModels (some 1) (some "ml.m5.large") none none
    none none none true (by decide) (by decide)).1 (by decide)

/-- C4: `update_endpoint` with none of the four new-variant arguments
dispatches the config creation with no `ProductionVariants` override, sends a
fresh name derived from the current config name to the endpoint update, and
overwrites the memoized config name with that fresh name; only describe calls
precede the two config-mutating calls. -/
theorem c4_no_variant_update_rotates_config (env : Env) (p : Predictor)
    (tags : Option Tags) (kms_key : Option String)
    (data_capture_config_dict : Option DataCaptureConfigDict)
    (max_instance_count min_instance_count : Option Nat) (wait : Bool) :
    ∃ (p' : Predictor) (pre : List Call) (et : Option EndpointType),
      update_endpoint env p none none none none tags kms_key data_capture_config_dict
          max_instance_count min_instance_count wait
        = .ok (p', pre ++
            [Call.createEndpointConfigFromExisting
                (p._endpoint_config_name.getD (env.endpointConfigName p.endpoint_name))
                (env.freshName (p._endpoint_config_name.getD
                  (env.endpointConfigName p.endpoint_name)))
                tags kms_key data_capture_config_dict none et,
              Call.updateEndpointCall p.endpoint_name
                (env.freshName (p._endpoint_config_name.getD
                  (env.endpointConfigName p.endpoint_name)))
                wait])
      ∧ p'._endpoint_config_name
          = some (env.freshName (p._endpoint_config_name.getD
              (env.endpointConfigName p.endpoint_name)))
      ∧ ∀ c ∈ pre, c.isConfigMutation = false := by
  have hen := (get_model_names_state_spec env p).1
  have hcfg := (get_model_names_state_spec env p).2.2.1
  have hmcalls := (get_model_names_state_spec env p).2.2.2
  obtain ⟨hg1, hg2, hg3, hg4⟩ :=
    get_endpoint_config_name_spec env (_get_model_names env p).2.1
  have hcur : (_get_endpoint_config_name env (_get_model_names env p).2.1).1
      = p._endpoint_config_name.getD (env.endpointConfigName p.endpoint_name) := by
    rw [hg1, hen, hcfg]
  have hge_en : (_get_endpoint_config_name env (_get_model_names env p).2.1).2.1.endpoint_name
      = p.endpoint_name := hg2.trans hen
  refine ⟨{ (_get_endpoint_config_name env (_get_model_names env p).2.1).2.1 with
      _endpoint_config_name := some (env.freshName
        (_get_endpoint_config_name env (_get_model_names env p).2.1).1) },
    (_get_model_names env p).2.2 ++
      (_get_endpoint_config_name env (_get_model_names env p).2.1).2.2,
    some (if strTruthy (_get_endpoint_config_name env
        (_get_model_names env p).2.1).2.1.get_component_name = true then
      EndpointType.INFERENCE_COMPONENT_BASED else EndpointType.MODEL_BASED),
    ?_, ?_, ?_⟩
  · rw [← hcur, ← hge_en]
    simp only [update_endpoint, natTruthy, strTruthy, Bool.or_self, Bool.false_or,
      Bool.false_eq_true, if_false, update_endpoint_finish]
  · rw [← hcur]
  · intro c hc
    rcases List.mem_append.mp hc with h | h
    · exact hmcalls c h
    · exact hg4 c h

/-- The `ContentType` built by `_create_request_args` follows the amended
resolution order. -/
theorem create_request_args_content_type (env : Env) (p : Predictor)
    (data : PredictData) (initial_args : Option RequestArgs)
    (target_model target_variant inference_id custom_attributes : Option String) :
    (_create_request_args env p data initial_args target_model target_variant
        inference_id custom_attributes).ContentType
      = some (amended_resolved_content_type p data initial_args) := by
  cases initial_args with
  | none =>
    cases data with
    | raw payload =>
      simp [_create_request_args, amended_resolved_content_type, RequestArgs.empty,
        PredictData.isJumpStart, strTruthy, apply_ite RequestArgs.ContentType]
    | jumpStart payload ct ac =>
      cases ct with
      | none =>
        simp [_create_request_args, amended_resolved_content_type, RequestArgs.empty,
          PredictData.isJumpStart, strTruthy, apply_ite RequestArgs.ContentType]
      | some c =>
        by_cases hc : c = "" <;>
          simp [_create_request_args, amended_resolved_content_type, RequestArgs.empty,
            PredictData.isJumpStart, strTruthy, hc, apply_ite RequestArgs.ContentType]
  | some a =>
    obtain ⟨aE, aC, aA, aT, aV, aI, aCA, aN, aB⟩ := a
    cases aC with
    | some v =>
      simp [_create_request_args, amended_resolved_content_type,
        apply_ite RequestArgs.ContentType]
    | none =>
      cases data with
      | raw payload =>
        simp [_create_request_args, amended_resolved_content_type,
          PredictData.isJumpStart, strTruthy, apply_ite RequestArgs.ContentType]
      | jumpStart payload ct ac =>
        cases ct with
        | none =>
          simp [_create_request_args, amended_resolved_content_type,
            PredictData.isJumpStart, strTruthy, apply_ite RequestArgs.ContentType]
        | some c =>
          by_cases hc : c = "" <;>
            simp [_create_request_args, amended_resolved_content_type,
              PredictData.isJumpStart, strTruthy, hc, apply_ite RequestArgs.ContentType]

/-- The `Accept` built by `_create_request_args` follows the amended
resolution order. -/
theorem create_request_args_accept (env : Env) (p : Predictor)
    (data : PredictData) (initial_args : Option RequestArgs)
    (target_model target_variant inference_id custom_attributes : Option String) :
    (_create_request_args env p data initial_args target_model target_variant
        inference_id custom_attributes).Accept
      = some (amended_resolved_accept p data initial_args) := by
  cases initial_args with
  | none =>
    cases data with
    | raw payload =>
      simp [_create_request_args, amended_resolved_accept, RequestArgs.empty,
        PredictData.isJumpStart, strTruthy, apply_ite RequestArgs.Accept]
    | jumpStart payload ct ac =>
      cases ac with
      | none =>
        simp [_create_request_args, amended_resolved_accept, RequestArgs.empty,
          PredictData.isJumpStart, strTruthy, apply_ite RequestArgs.Accept]
      | some c =>
        by_cases hc : c = "" <;>
          simp [_create_request_args, amended_resolved_accept, RequestArgs.empty,
            PredictData.isJumpStart, strTruthy, hc, apply_ite RequestArgs.Accept]
  | some a =>
    obtain ⟨aE, aC, aA, aT, aV, aI, aCA, aN, aB⟩ := a
    cases aA with
    | some v =>
      simp [_create_request_args, amended_resolved_accept, apply_ite RequestArgs.Accept]
    | none =>
      cases data with
      | raw payload =>
        simp [_create_request_args, amended_resolved_accept,
          PredictData.isJumpStart, strTruthy, apply_ite RequestArgs.Accept]
      | jumpStart payload ct ac =>
        cases ac with
        | none =>
          simp [_create_request_args, amended_resolved_accept,
            PredictData.isJumpStart, strTruthy, apply_ite RequestArgs.Accept]
        | some c =>
          by_cases hc : c = "" <;>
            simp [_create_request_args, amended_resolved_accept,
              PredictData.isJumpStart, strTruthy, hc, apply_ite RequestArgs.Accept]

/-- The per-call component-name override of `predict` does not alter the
`ContentType` / `Accept` fields of the request. -/
theorem predict_request_fields (env : Env) (p : Predictor) (data : PredictData)
    (initial_args : Option RequestArgs)
    (target_model target_variant inference_id custom_attributes component_name :
      Option String) :
    (predict_request env p data initial_args target_model target_variant inference_id
        custom_attributes component_name).ContentType
      = (_create_request_args env p data initial_args target_model target_variant
          inference_id custom_attributes).ContentType
  ∧ (predict_request env p data initial_args target_model target_variant inference_id
        custom_attributes component_name).Accept
      = (_create_request_args env p data initial_args target_model target_variant
          inference_id custom_attributes).Accept := by
  constructor <;>
    simp [predict_request, apply_ite RequestArgs.ContentType, apply_ite RequestArgs.Accept]

/-- C1 (amended): every `predict` call dispatches exactly one invoke request,
whose `ContentType` and `Accept` follow this precedence: a value explicitly
present in `initial_args` wins; otherwise a truthy embedded value of a
`JumpStartSerializablePayload` is used; otherwise the predictor's
`content_type` / `accept` property — the setter-installed value when truthy,
else the serializer's `CONTENT_TYPE` / the deserializer's `ACCEPT` — with
tuples joined into a single `", "`-separated string. -/
theorem c1_content_accept_resolution_amended (env : Env) (p : Predictor)
    (data : PredictData) (initial_args : Option RequestArgs)
    (target_model target_variant inference_id custom_attributes component_name :
      Option String) :
    (predict env p data initial_args target_model target_variant inference_id
        custom_attributes component_name).2
      = [Call.invokeEndpoint (predict_request env p data initial_args target_model
          target_variant inference_id custom_attributes component_name)]
  ∧ (predict_request env p data initial_args target_model target_variant inference_id
        custom_attributes component_name).ContentType
      = some (amended_resolved_content_type p data initial_args)
  ∧ (predict_request env p data initial_args target_model target_variant inference_id
        custom_attributes component_name).Accept
      = some (amended_resolved_accept p data initial_args) :=
  ⟨rfl,
    (predict_request_fields env p data initial_args target_model target_variant
        inference_id custom_attributes component_name).1.trans
      (create_request_args_content_type env p data initial_args target_model
        target_variant inference_id custom_attributes),
    (predict_request_fields env p data initial_args target_model target_variant
        inference_id custom_attributes component_name).2.trans
      (create_request_args_accept env p data initial_args target_model
        target_variant inference_id custom_attributes)⟩

end BasePredictor
